import Mathlib

/-!
Verification of the calm-dsl entity compiler against its specification.

The Python sources are embedded shallowly:
* dictionaries whose key sets are fixed by the code become Lean structures,
  with `Option` fields modelling presence/absence of a key;
* `str(uuid.uuid4())` (a draw from a fresh-identifier supply) is modelled by
  an explicit counter threaded through the payload builders; the `n`-th draw
  is the string `uuidStr n`, an injective function into non-empty strings;
* fallible dictionary lookups return `Option`, raised exceptions become
  `Except` errors.
-/

namespace CalmDSL

/-- The `n`-th identifier drawn from the fresh-uuid supply.  Models
`str(uuid.uuid4())`: the only properties the code relies on are that every
draw is a non-empty string and that distinct draws are distinct. -/
def uuidStr (n : Nat) : String :=
  String.mk (List.replicate (n + 1) 'u')

theorem uuidStr_length (n : Nat) : (uuidStr n).length = n + 1 := by
  simp [uuidStr, String.length]

theorem uuidStr_ne_empty (n : Nat) : uuidStr n ≠ "" := by
  intro h
  have := uuidStr_length n
  rw [h] at this
  simp at this

theorem uuidStr_injective : Function.Injective uuidStr := by
  intro m n h
  have hl : (uuidStr m).length = (uuidStr n).length := by rw [h]
  rw [uuidStr_length, uuidStr_length] at hl
  omega

/-- `attrs` marker dictionary attached to secret-typed entries,
`{"is_secret_modified": True, "type": "SECRET"}`. -/
structure Attrs where
  is_secret_modified : Bool
  type : String
deriving DecidableEq, Repr

/-- A variable / auth-schema entry as manipulated by the payload builders in
`calm/dsl/cli/accounts.py`: a dictionary with `name`, `type`, `value` keys and
optional `uuid` and `attrs` keys. -/
structure Variable where
  name : String
  type : String
  value : String
  uuid : Option String
  attrs : Option Attrs
deriving DecidableEq, Repr

/-- `attrs` value written next to secret entries. -/
def secretAttrs : Attrs := { is_secret_modified := true, type := "SECRET" }

/-- `if var["type"] == "SECRET": var["attrs"] = {"is_secret_modified": True,
"type": "SECRET"}` -/
def markSecret (v : Variable) : Variable :=
  if v.type = "SECRET" then { v with attrs := some secretAttrs } else v

/-- One `for var in lst:` stamping loop from `accounts.py`: each element is
transformed by the loop body `f`, receiving the index of the fresh identifier
drawn for it; the supply counter advances once per element. -/
def stampEach (f : Variable → Nat → Variable) :
    List Variable → Nat → List Variable × Nat
  | [], n => ([], n)
  | v :: rest, n =>
    let r := stampEach f rest (n + 1)
    (f v n :: r.1, r.2)

theorem stampEach_length (f : Variable → Nat → Variable) (vs : List Variable)
    (n : Nat) : (stampEach f vs n).1.length = vs.length := by
  induction vs generalizing n with
  | nil => rfl
  | cons v rest ih => simp [stampEach, ih]

theorem stampEach_counter (f : Variable → Nat → Variable) (vs : List Variable)
    (n : Nat) : (stampEach f vs n).2 = n + vs.length := by
  induction vs generalizing n with
  | nil => simp [stampEach]
  | cons v rest ih => simp [stampEach, ih]; omega

theorem stampEach_map_uuid (f : Variable → Nat → Variable)
    (hf : ∀ v k, (f v k).uuid = some (uuidStr k)) (vs : List Variable)
    (n : Nat) :
    (stampEach f vs n).1.map Variable.uuid
      = (List.range' n vs.length).map (fun k => some (uuidStr k)) := by
  induction vs generalizing n with
  | nil => rfl
  | cons v rest ih => simp [stampEach, List.range'_succ, hf, ih]

theorem stampEach_mem (f : Variable → Nat → Variable) (vs : List Variable)
    (n : Nat) (w : Variable) (hw : w ∈ (stampEach f vs n).1) :
    ∃ v k, v ∈ vs ∧ w = f v k := by
  induction vs generalizing n with
  | nil => simp [stampEach] at hw
  | cons v rest ih =>
    simp only [stampEach, List.mem_cons] at hw
    rcases hw with h | h
    · exact ⟨v, n, List.mem_cons_self .., h⟩
    · obtain ⟨v', k, hv', hk⟩ := ih _ h
      exact ⟨v', k, List.mem_cons_of_mem _ hv', hk⟩

theorem someUuid_injective : Function.Injective (fun k => some (uuidStr k)) := by
  intro a b h
  exact uuidStr_injective (Option.some_injective _ h)

theorem stampEach_uuid_nodup (f : Variable → Nat → Variable)
    (hf : ∀ v k, (f v k).uuid = some (uuidStr k)) (vs : List Variable)
    (n : Nat) : ((stampEach f vs n).1.map Variable.uuid).Nodup := by
  rw [stampEach_map_uuid f hf]
  exact (List.nodup_range' n vs.length).map someUuid_injective

/-- An entry of an action list (`action_list`), as far as identifier stamping
is concerned: a named element with an optional identifier. -/
structure ActionItem where
  name : String
  uuid : Option String
deriving DecidableEq, Repr

/-- `resource_config` block of a credential-provider account's data:
`variables` (input variables), `cred_attrs` (output variables) and
`action_list`. -/
structure ResourceConfig where
  «variables» : List Variable
  cred_attrs : List Variable
  action_list : List ActionItem
deriving DecidableEq, Repr

/-- `data` block of an account's compiled dictionary. -/
structure AccountData where
  auth_schema_list : List Variable
  resource_config : ResourceConfig
deriving DecidableEq, Repr

/-- A declared user account, as consumed by the payload builders: its `name`
attribute (possibly empty), its class name `__name__`, its `type`, and the
`data` block of `get_dict()`. -/
structure UserAccount where
  name : String
  className : String
  type : String
  data : AccountData
deriving DecidableEq, Repr

/-- `UserAccount.get_dict()`: the compiled dictionary of the account. -/
structure UserAccountDict where
  type : String
  data : AccountData
deriving DecidableEq, Repr

def UserAccount.get_dict (ua : UserAccount) : UserAccountDict :=
  { type := ua.type, data := ua.data }

/-- `getattr(UserAccount, "name", "") or getattr(UserAccount, "__name__", "")`
(Python `or` falls through on the empty string). -/
def effectiveName (ua : UserAccount) : String :=
  if ua.name = "" then ua.className else ua.name

/-- A payload `metadata` dictionary.  `name` is optional because
`create_provider_payload` builds a metadata dictionary without a `name` key. -/
structure Metadata where
  kind : String
  name : Option String
  uuid : String
deriving DecidableEq, Repr

/-- A reference dictionary `{"kind": ..., "uuid": ...}`. -/
structure Ref where
  kind : String
  uuid : String
deriving DecidableEq, Repr

/-- `spec` block of a payload: `{"name": ..., "resources": ...}`. -/
structure SpecOf (α : Type) where
  name : String
  resources : α
deriving DecidableEq, Repr

/-- A payload: `{"spec": ..., "metadata": ...}`. -/
structure PayloadOf (α : Type) where
  spec : SpecOf α
  metadata : Metadata
deriving DecidableEq, Repr

/-- `resources` of a provider payload. -/
structure ProviderResources where
  auth_schema_list : List Variable
deriving DecidableEq, Repr

/-- `resources` of a resource-type payload. -/
structure ResourceTypeResources where
  provider_reference : Ref
  variable_list : List Variable
  schema_list : List Variable
  action_list : List ActionItem
deriving DecidableEq, Repr

/-- `data` of a composite account payload's resources. -/
structure AccountResData where
  provider_reference : Ref
  variable_list : List Variable
deriving DecidableEq, Repr

/-- `resources` of a composite account payload. -/
structure AccountResources where
  type : String
  data : AccountResData
deriving DecidableEq, Repr

/-- The composite bundle returned by
`create_credential_provider_account_payload`. -/
structure CredentialProviderBundle where
  provider : PayloadOf ProviderResources
  resource_type : PayloadOf ResourceTypeResources
  account : PayloadOf AccountResources
deriving DecidableEq, Repr

/-- Modelled from the spec: `insert_uuid` lives in `calm/dsl/cli/utils.py`,
which is not among the provided sources.  Per the Reference Stamper contract it
walks an action list, assigns a fresh identifier to every element lacking one,
and keeps identifiers that are already present. -/
def insert_uuid : List ActionItem → Nat → List ActionItem × Nat
  | [], n => ([], n)
  | a :: rest, n =>
    match a.uuid with
    | some _ =>
      let r := insert_uuid rest n
      (a :: r.1, r.2)
    | none =>
      let r := insert_uuid rest (n + 1)
      ({ a with uuid := some (uuidStr n) } :: r.1, r.2)

/-- `create_provider_payload` (accounts.py, lines 420-444): metadata
`{"kind": "provider", "uuid": fresh}` (no `name` key); each auth-schema entry
gets `value = ""`, a fresh `uuid`, and the secret marker when its type is
`"SECRET"`. -/
def create_provider_payload (ua : UserAccount) (n : Nat) :
    PayloadOf ProviderResources × Nat :=
  let name := effectiveName ua
  let metadata : Metadata := { kind := "provider", name := none, uuid := uuidStr n }
  let r := stampEach
    (fun v k => markSecret { v with value := "", uuid := some (uuidStr k) })
    ua.data.auth_schema_list (n + 1)
  ({ spec := { name := name, resources := { auth_schema_list := r.1 } },
     metadata := metadata }, r.2)

/-- `create_resource_type_payload` (accounts.py, lines 365-417): metadata
`{"kind": "resource_type", "name": name, "uuid": fresh}`; input/output
variables get the secret marker, the action list is stamped by `insert_uuid`,
then every input and output variable gets a fresh `uuid`; the resources embed
`provider_reference = {"kind": "provider", "uuid": provider_uuid}`. -/
def create_resource_type_payload (ua : UserAccount) (provider_uuid : String)
    (n : Nat) : PayloadOf ResourceTypeResources × Nat :=
  let name := effectiveName ua
  let metadata : Metadata :=
    { kind := "resource_type", name := some name, uuid := uuidStr n }
  let rc := ua.data.resource_config
  let input_vars := rc.«variables».map markSecret
  let output_vars := rc.cred_attrs.map markSecret
  let acts := insert_uuid rc.action_list (n + 1)
  let ivs := stampEach (fun v k => { v with uuid := some (uuidStr k) }) input_vars acts.2
  let ovs := stampEach (fun v k => { v with uuid := some (uuidStr k) }) output_vars ivs.2
  let provider_reference : Ref := { kind := "provider", uuid := provider_uuid }
  ({ spec := { name := name,
               resources := { provider_reference := provider_reference,
                              variable_list := ivs.1,
                              schema_list := ovs.1,
                              action_list := acts.1 } },
     metadata := metadata }, ovs.2)

/-- `create_credential_provider_account_payload` (accounts.py, lines 293-362):
builds the provider payload, then the resource-type payload from the provider's
generated `metadata.uuid`, then the account payload whose
`data.provider_reference` is copied from the resource-type payload's
`spec.resources.provider_reference` and whose `variable_list` is the declared
auth-schema list, stamped and secret-marked. -/
def create_credential_provider_account_payload (ua : UserAccount) (n : Nat) :
    CredentialProviderBundle × Nat :=
  let pp := create_provider_payload ua n
  let provider_uuid := pp.1.metadata.uuid
  let rtp := create_resource_type_payload ua provider_uuid pp.2
  let account_name := effectiveName ua
  let metadata : Metadata :=
    { kind := "account", name := some account_name, uuid := uuidStr rtp.2 }
  let vl := stampEach (fun v k => markSecret { v with uuid := some (uuidStr k) })
    ua.data.auth_schema_list (rtp.2 + 1)
  let provider_reference := rtp.1.spec.resources.provider_reference
  let account_resources : AccountResources :=
    { type := "custom_provider",
      data := { provider_reference := provider_reference, variable_list := vl.1 } }
  ({ provider := pp.1,
     resource_type := rtp.1,
     account := { spec := { name := account_name, resources := account_resources },
                  metadata := metadata } }, vl.2)

/-- `create_account_payload` (accounts.py, lines 272-290): the plain account
payload, `{"spec": {"name": __name__, "resources": get_dict()}, "metadata":
{"kind": "account", "name": __name__, "uuid": fresh}}`. -/
def create_account_payload (ua : UserAccount) (n : Nat) :
    PayloadOf UserAccountDict × Nat :=
  let account_name := ua.className
  ({ spec := { name := account_name, resources := ua.get_dict },
     metadata := { kind := "account", name := some account_name,
                   uuid := uuidStr n } }, n + 1)

/-- A `provider` entry of a project's `provider_list`, as read by
`ProjectType.compile`: the `provider_type` and `account_reference` keys are
always read, the three other keys are tested for presence first. -/
structure ProviderObj where
  provider_type : String
  account_reference : String
  subnet_reference_list : Option (List String)
  external_network_list : Option (List String)
  default_subnet_reference : Option String
deriving DecidableEq, Repr

/-- One entry of `resource_domain.resources`:
`{"limit": qv, "resource_type": qk}`. -/
structure ResourceEntry where
  limit : Int
  resource_type : String
deriving DecidableEq, Repr

/-- The `resource_domain` dictionary: `{"resources": [...]}`. -/
structure ResourceDomain where
  resources : List ResourceEntry
deriving DecidableEq, Repr

/-- The project dictionary transformed by `ProjectType.compile`, restricted to
the keys that the hook reads or writes.  `Option` fields model key
presence/absence; a quotas mapping is an association list of resource name to
declared (integer) value, with the keys pairwise distinct as in a Python
dictionary. -/
structure Cdict where
  provider_list : Option (List ProviderObj)
  quotas : Option (List (String × Int))
  subnet_reference_list : Option (List String)
  external_network_list : Option (List String)
  default_subnet_reference : Option String
  environment_definition_list : Option (List String)
  account_reference_list : Option (List String)
  resource_domain : Option ResourceDomain
deriving DecidableEq, Repr

/-- The body of the `for provider_obj in provider_list:` loop of
`ProjectType.compile` (project.py, lines 23-41).  Note the `elif`: when a
`nutanix_pc` provider carries a `subnet_reference_list` key, its
`external_network_list` is never examined. -/
def processProvider (cdict : Cdict) (p : ProviderObj) : Cdict :=
  let cdict :=
    if p.provider_type = "nutanix_pc" then
      let cdict :=
        match p.subnet_reference_list with
        | some srl =>
          { cdict with
            subnet_reference_list := some (cdict.subnet_reference_list.getD [] ++ srl) }
        | none =>
          match p.external_network_list with
          | some enl =>
            { cdict with
              external_network_list := some (cdict.external_network_list.getD [] ++ enl) }
          | none => cdict
      match p.default_subnet_reference with
      | some d => { cdict with default_subnet_reference := some d }
      | none => cdict
    else cdict
  { cdict with
    account_reference_list := some (cdict.account_reference_list.getD [] ++ [p.account_reference]) }

/-- `{"limit": qv, "resource_type": qk}` with
`if qk != "VCPUS": qv *= 1073741824` (project.py, lines 46-50). -/
def quotaEntry (q : String × Int) : ResourceEntry :=
  { limit := if q.1 ≠ "VCPUS" then q.2 * 1073741824 else q.2,
    resource_type := q.1 }

/-- The quota step of `ProjectType.compile` (project.py, lines 43-52):
`quotas = cdict.pop("quotas", None)` followed by `if quotas:` — which is
False both for a missing key and for an empty mapping. -/
def applyQuotas (cdict : Cdict) : Cdict :=
  let quotas := cdict.quotas
  let cdict := { cdict with quotas := none }
  match quotas with
  | none => cdict
  | some q =>
    if q.isEmpty then cdict
    else { cdict with resource_domain := some { resources := q.map quotaEntry } }

/-- `ProjectType.compile` (project.py, lines 16-57), applied to the dictionary
produced by the base `compile()` (which carries the declared fields). -/
def ProjectType.compile (cdict : Cdict) : Cdict :=
  let provider_list := cdict.provider_list.getD []
  let cdict :=
    { cdict with provider_list := none, account_reference_list := some [] }
  let cdict := provider_list.foldl processProvider cdict
  let cdict := applyQuotas cdict
  { cdict with environment_definition_list := none }

/-- `spec_provider_map` (provider_spec.py, lines 11-18). -/
def spec_provider_map : List (String × String) :=
  [("PROVISION_AHV_VM", "AHV_VM"),
   ("PROVISION_VMWARE_VM", "VMWARE_VM"),
   ("PROVISION_GCP_VM", "GCP_VM"),
   ("PROVISION_EXISTING_MACHINE", "EXISTING_VM"),
   ("PROVISION_AWS_VM", "AWS_VM"),
   ("PROVISION_AZURE_VM", "AZURE_VM")]

/-- Python dictionary lookup `m[k]`, returning `none` where Python raises
`KeyError`. -/
def mapLookup (m : List (String × String)) (k : String) : Option String :=
  (m.find? (fun p => p.1 = k)).map (fun p => p.2)

/-- The raw provider-spec blob: its optional `"type"` key and the rest of the
body (opaque to the dispatch logic). -/
structure PSpec where
  type : Option String
  body : String
deriving DecidableEq, Repr

/-- Errors raised by `ProviderSpec.__get__`: an unguarded `KeyError` from
`spec_provider_map[spec_type]`, the `TypeError` carrying the substrate's
provider type, the resolved spec type and the substrate class name, or an
error propagated from the provider-specific structural validator. -/
inductive SpecError where
  | keyError (key : String)
  | typeMismatch (substrate_type spec_type ctx : String)
  | validationError (msg : String)
deriving DecidableEq, Repr

/-- `ProviderSpec.__get__` (provider_spec.py, lines 38-50) followed by
`__validate__`: `validate_spec` models the external collaborator
`get_provider(provider_type).validate_spec` (the `calm.dsl.providers` module
is outside the compiler sources); on success the blob itself is returned. -/
def ProviderSpec.get (validate_spec : String → String → Except SpecError Unit)
    (spec : PSpec) (provider_type ctx : String) : Except SpecError PSpec :=
  let spec_type := spec.type.getD "PROVISION_AHV_VM"
  match mapLookup spec_provider_map spec_type with
  | none => .error (.keyError spec_type)
  | some st =>
    if st ≠ provider_type then
      .error (.typeMismatch provider_type st ctx)
    else
      match validate_spec provider_type spec.body with
      | .error e => .error e
      | .ok _ => .ok spec

/-! ### Helper lemmas -/

theorem markSecret_type (v : Variable) : (markSecret v).type = v.type := by
  unfold markSecret; split <;> rfl

theorem markSecret_uuid (v : Variable) : (markSecret v).uuid = v.uuid := by
  unfold markSecret; split <;> rfl

theorem markSecret_value (v : Variable) : (markSecret v).value = v.value := by
  unfold markSecret; split <;> rfl

theorem markSecret_attrs_secret (v : Variable) (h : v.type = "SECRET") :
    (markSecret v).attrs = some secretAttrs := by
  simp [markSecret, h]

theorem markSecret_attrs_other (v : Variable) (h : v.type ≠ "SECRET") :
    (markSecret v).attrs = v.attrs := by
  simp [markSecret, h]

/-- A validator collaborator that accepts everything; used to instantiate
theorems about the provider-spec dispatch at concrete inputs. -/
def okValidator : String → String → Except SpecError Unit :=
  fun _ _ => Except.ok ()

/-- C4: with spec kind `"PROVISION_AHV_VM"` the fixed mapping resolves to
`"AHV_VM"`; against a substrate of provider type `"AHV_VM"` validation
succeeds (provided the delegated structural validator accepts) and returns
the spec, while against `"AWS_VM"` it fails with the provider-type-mismatch
error carrying the substrate type, the resolved spec type and the substrate
context. -/
theorem providerSpec_dispatch_C4
    (validate : String → String → Except SpecError Unit) (body ctx : String)
    (hok : validate "AHV_VM" body = Except.ok ()) :
    ProviderSpec.get validate ⟨some "PROVISION_AHV_VM", body⟩ "AHV_VM" ctx
        = Except.ok ⟨some "PROVISION_AHV_VM", body⟩ ∧
    ProviderSpec.get validate ⟨some "PROVISION_AHV_VM", body⟩ "AWS_VM" ctx
        = Except.error (.typeMismatch "AWS_VM" "AHV_VM" ctx) := by
  constructor
  · have h1 : ProviderSpec.get validate ⟨some "PROVISION_AHV_VM", body⟩ "AHV_VM" ctx
        = match validate "AHV_VM" body with
          | .error e => .error e
          | .ok _ => .ok ⟨some "PROVISION_AHV_VM", body⟩ := rfl
    rw [h1, hok]
  · rfl

theorem providerSpec_dispatch_C4_witness :
    (okValidator "AHV_VM" "vm-spec-body" = Except.ok ()) ∧
    (ProviderSpec.get okValidator ⟨some "PROVISION_AHV_VM", "vm-spec-body"⟩
        "AHV_VM" "MySubstrate"
        = Except.ok ⟨some "PROVISION_AHV_VM", "vm-spec-body"⟩ ∧
     ProviderSpec.get okValidator ⟨some "PROVISION_AHV_VM", "vm-spec-body"⟩
        "AWS_VM" "MySubstrate"
        = Except.error (.typeMismatch "AWS_VM" "AHV_VM" "MySubstrate")) :=
  ⟨rfl, providerSpec_dispatch_C4 okValidator "vm-spec-body" "MySubstrate" rfl⟩

/-- C8: a blob without a `"type"` key defaults to `"PROVISION_AHV_VM"`, so
validation succeeds exactly on substrate provider type `"AHV_VM"` and raises
the provider-type-mismatch error for every other substrate provider type. -/
theorem providerSpec_default_C8
    (validate : String → String → Except SpecError Unit) (body ctx pt : String)
    (hok : validate "AHV_VM" body = Except.ok ()) :
    ProviderSpec.get validate ⟨none, body⟩ pt ctx
      = if pt = "AHV_VM" then Except.ok ⟨none, body⟩
        else Except.error (.typeMismatch pt "AHV_VM" ctx) := by
  by_cases h : pt = "AHV_VM"
  · subst h
    have h1 : ProviderSpec.get validate ⟨none, body⟩ "AHV_VM" ctx
        = match validate "AHV_VM" body with
          | .error e => .error e
          | .ok _ => .ok ⟨none, body⟩ := rfl
    rw [h1, hok]
    simp
  · have h2 : mapLookup spec_provider_map "PROVISION_AHV_VM" = some "AHV_VM" := rfl
    simp [ProviderSpec.get, h2, Ne.symm h, h]

theorem providerSpec_default_C8_witness :
    (okValidator "AHV_VM" "vm-body" = Except.ok ()) ∧
    ProviderSpec.get okValidator ⟨none, "vm-body"⟩ "AWS_VM" "SubCtx"
      = if "AWS_VM" = "AHV_VM" then Except.ok ⟨none, "vm-body"⟩
        else Except.error (.typeMismatch "AWS_VM" "AHV_VM" "SubCtx") :=
  ⟨rfl, providerSpec_default_C8 okValidator "vm-body" "SubCtx" "AWS_VM" rfl⟩

/-- C9: a declared `"type"` outside the six keys of `spec_provider_map` fails
with the unguarded key-lookup error (`KeyError`), not the documented mismatch
error, and does so for every substrate provider type — the substrate type is
never compared. -/
theorem providerSpec_unknown_kind_C9
    (validate : String → String → Except SpecError Unit)
    (body ctx pt t : String) (ht : t ∉ spec_provider_map.map Prod.fst) :
    ProviderSpec.get validate ⟨some t, body⟩ pt ctx
      = Except.error (.keyError t) := by
  have hfind : spec_provider_map.find? (fun p => p.1 = t) = none := by
    rw [List.find?_eq_none]
    intro x hx
    simp only [decide_eq_true_eq]
    intro hxt
    exact ht (List.mem_map.mpr ⟨x, hx, hxt⟩)
  have hl : mapLookup spec_provider_map t = none := by
    simp [mapLookup, hfind]
  simp [ProviderSpec.get, hl]

theorem providerSpec_unknown_kind_C9_witness :
    ("PROVISION_FOO_VM" ∉ spec_provider_map.map Prod.fst) ∧
    ProviderSpec.get okValidator ⟨some "PROVISION_FOO_VM", "b"⟩ "AHV_VM" "Sub"
      = Except.error (.keyError "PROVISION_FOO_VM") :=
  ⟨by decide,
   providerSpec_unknown_kind_C9 okValidator "b" "Sub" "AHV_VM"
     "PROVISION_FOO_VM" (by decide)⟩

/-! ### Project compile: helper lemmas -/

theorem processProvider_preserves (c : Cdict) (p : ProviderObj) :
    (processProvider c p).quotas = c.quotas ∧
    (processProvider c p).resource_domain = c.resource_domain := by
  obtain ⟨pt, ar, srl, enl, dsr⟩ := p
  by_cases h : pt = "nutanix_pc" <;> cases srl <;> cases enl <;> cases dsr <;>
    simp [processProvider, h]

theorem foldl_processProvider_quotas (ps : List ProviderObj) (c : Cdict) :
    (ps.foldl processProvider c).quotas = c.quotas := by
  induction ps generalizing c with
  | nil => rfl
  | cons p ps ih => rw [List.foldl_cons, ih, (processProvider_preserves c p).1]

theorem foldl_processProvider_rdomain (ps : List ProviderObj) (c : Cdict) :
    (ps.foldl processProvider c).resource_domain = c.resource_domain := by
  induction ps generalizing c with
  | nil => rfl
  | cons p ps ih => rw [List.foldl_cons, ih, (processProvider_preserves c p).2]

theorem applyQuotas_quotas (c : Cdict) : (applyQuotas c).quotas = none := by
  rcases hq : c.quotas with _ | (_ | ⟨a, l⟩) <;> simp [applyQuotas, hq]

theorem applyQuotas_rdomain_some (c : Cdict) (q : List (String × Int))
    (hq : c.quotas = some q) (hne : q ≠ []) :
    (applyQuotas c).resource_domain = some { resources := q.map quotaEntry } := by
  rcases q with _ | ⟨a, l⟩
  · exact absurd rfl hne
  · simp [applyQuotas, hq]

theorem applyQuotas_rdomain_empty (c : Cdict) (hq : c.quotas = some []) :
    (applyQuotas c).resource_domain = c.resource_domain := by
  simp [applyQuotas, hq]

theorem applyQuotas_lists (c : Cdict) :
    (applyQuotas c).subnet_reference_list = c.subnet_reference_list ∧
    (applyQuotas c).external_network_list = c.external_network_list ∧
    (applyQuotas c).account_reference_list = c.account_reference_list := by
  rcases hq : c.quotas with _ | (_ | ⟨a, l⟩) <;> simp [applyQuotas, hq]

/-- The inner pipeline of `ProjectType.compile`, exposed for projections. -/
theorem compile_eq (c : Cdict) :
    ProjectType.compile c
      = { applyQuotas ((c.provider_list.getD []).foldl processProvider
            { c with provider_list := none, account_reference_list := some [] })
          with environment_definition_list := none } := rfl

theorem compile_quotas (c : Cdict) : (ProjectType.compile c).quotas = none := by
  rw [compile_eq]
  exact applyQuotas_quotas _

theorem quotaEntry_eq_specForm :
    quotaEntry = fun kv : String × Int =>
      ({ limit := if kv.1 = "VCPUS" then kv.2 else kv.2 * 1073741824,
         resource_type := kv.1 } : ResourceEntry) := by
  funext kv
  by_cases h : kv.1 = "VCPUS" <;> simp [quotaEntry, h]

/-- C1 (amended): for a project dictionary carrying a non-empty quotas
mapping, `compile` removes the `quotas` key and emits
`resource_domain.resources` with exactly one entry per quota key, the entry's
`limit` being the declared value for `"VCPUS"` and the declared value times
1073741824 for every other key.  (With an empty quotas mapping the key is
removed but no `resource_domain` is produced — see the counterexample.) -/
theorem project_quota_conversion_C1 (c : Cdict) (q : List (String × Int))
    (hq : c.quotas = some q) (hne : q ≠ []) :
    (ProjectType.compile c).quotas = none ∧
    (ProjectType.compile c).resource_domain
      = some { resources := q.map (fun kv =>
          { limit := if kv.1 = "VCPUS" then kv.2 else kv.2 * 1073741824,
            resource_type := kv.1 }) } := by
  refine ⟨compile_quotas c, ?_⟩
  rw [compile_eq]
  have hq2 : ((c.provider_list.getD []).foldl processProvider
      { c with provider_list := none, account_reference_list := some [] }).quotas
        = some q := by
    rw [foldl_processProvider_quotas]
    exact hq
  have h3 := applyQuotas_rdomain_some _ q hq2 hne
  rw [show ({ applyQuotas ((c.provider_list.getD []).foldl processProvider
      { c with provider_list := none, account_reference_list := some [] })
      with environment_definition_list := none } : Cdict).resource_domain
      = (applyQuotas ((c.provider_list.getD []).foldl processProvider
      { c with provider_list := none, account_reference_list := some [] })).resource_domain
      from rfl, h3, quotaEntry_eq_specForm]

theorem project_quota_conversion_C1_witness :
    (({ provider_list := none, quotas := some [("STORAGE", 5), ("VCPUS", 2)],
        subnet_reference_list := none, external_network_list := none,
        default_subnet_reference := none, environment_definition_list := none,
        account_reference_list := none, resource_domain := none } : Cdict).quotas
      = some [("STORAGE", 5), ("VCPUS", 2)]) ∧
    ([("STORAGE", (5 : Int)), ("VCPUS", 2)] ≠ []) ∧
    ((ProjectType.compile
        { provider_list := none, quotas := some [("STORAGE", 5), ("VCPUS", 2)],
          subnet_reference_list := none, external_network_list := none,
          default_subnet_reference := none, environment_definition_list := none,
          account_reference_list := none, resource_domain := none }).quotas = none ∧
     (ProjectType.compile
        { provider_list := none, quotas := some [("STORAGE", 5), ("VCPUS", 2)],
          subnet_reference_list := none, external_network_list := none,
          default_subnet_reference := none, environment_definition_list := none,
          account_reference_list := none, resource_domain := none }).resource_domain
       = some { resources := [("STORAGE", (5 : Int)), ("VCPUS", 2)].map (fun kv =>
           { limit := if kv.1 = "VCPUS" then kv.2 else kv.2 * 1073741824,
             resource_type := kv.1 }) }) :=
  ⟨rfl, by decide,
   project_quota_conversion_C1 _ [("STORAGE", 5), ("VCPUS", 2)] rfl (by decide)⟩

/-- C1 counterexample: a project dictionary declaring an *empty* quotas
mapping.  The claim as stated requires `resource_domain.resources` to be
produced (with one entry per key, here zero entries); the code's `if quotas:`
is False for an empty mapping, so the `quotas` key is removed but no
`resource_domain` key is ever written. -/
theorem project_quota_conversion_C1_counterexample :
    (({ provider_list := none, quotas := some [],
        subnet_reference_list := none, external_network_list := none,
        default_subnet_reference := none, environment_definition_list := none,
        account_reference_list := none, resource_domain := none } : Cdict).quotas
      = some []) ∧
    (ProjectType.compile
        { provider_list := none, quotas := some [],
          subnet_reference_list := none, external_network_list := none,
          default_subnet_reference := none, environment_definition_list := none,
          account_reference_list := none, resource_domain := none }).resource_domain
      = none := by
  constructor
  · rfl
  · decide

theorem compile_subnet (c : Cdict) :
    (ProjectType.compile c).subnet_reference_list
      = ((c.provider_list.getD []).foldl processProvider
          { c with provider_list := none,
                   account_reference_list := some [] }).subnet_reference_list := by
  rw [compile_eq]
  exact (applyQuotas_lists _).1

theorem compile_external (c : Cdict) :
    (ProjectType.compile c).external_network_list
      = ((c.provider_list.getD []).foldl processProvider
          { c with provider_list := none,
                   account_reference_list := some [] }).external_network_list := by
  rw [compile_eq]
  exact (applyQuotas_lists _).2.1

/-- C5 (amended): a `nutanix_pc` provider's `subnet_reference_list` entries
are appended to the project's top-level `subnet_reference_list`; its
`external_network_list` entries are appended to the top-level
`external_network_list` only when that provider declares no
`subnet_reference_list` — when one provider declares both lists at once, only
the subnet entries are contributed and the external-network entries are
silently dropped (`elif` in the source). -/
theorem project_provider_lists_C5 (c : Cdict) (a : String) (s e : List String)
    (hsub : c.subnet_reference_list = none)
    (hext : c.external_network_list = none) :
    (c.provider_list = some [⟨"nutanix_pc", a, some s, some e, none⟩] →
      (ProjectType.compile c).subnet_reference_list = some s ∧
      (ProjectType.compile c).external_network_list = none) ∧
    (c.provider_list = some [⟨"nutanix_pc", a, none, some e, none⟩] →
      (ProjectType.compile c).external_network_list = some e) := by
  constructor
  · intro hpl
    constructor
    · rw [compile_subnet, hpl]
      show (processProvider
        { c with provider_list := none, account_reference_list := some [] }
        ⟨"nutanix_pc", a, some s, some e, none⟩).subnet_reference_list = some s
      simp [processProvider, hsub]
    · rw [compile_external, hpl]
      show (processProvider
        { c with provider_list := none, account_reference_list := some [] }
        ⟨"nutanix_pc", a, some s, some e, none⟩).external_network_list = none
      simp [processProvider, hext]
  · intro hpl
    rw [compile_external, hpl]
    show (processProvider
      { c with provider_list := none, account_reference_list := some [] }
      ⟨"nutanix_pc", a, none, some e, none⟩).external_network_list = some e
    simp [processProvider, hext]

theorem project_provider_lists_C5_witness :
    (({ provider_list := some [⟨"nutanix_pc", "acc-1", some ["A", "B"], some ["N"], none⟩],
        quotas := none, subnet_reference_list := none, external_network_list := none,
        default_subnet_reference := none, environment_definition_list := none,
        account_reference_list := none, resource_domain := none } : Cdict).subnet_reference_list
      = none) ∧
    ((ProjectType.compile
        { provider_list := some [⟨"nutanix_pc", "acc-1", some ["A", "B"], some ["N"], none⟩],
          quotas := none, subnet_reference_list := none, external_network_list := none,
          default_subnet_reference := none, environment_definition_list := none,
          account_reference_list := none, resource_domain := none }).subnet_reference_list
      = some ["A", "B"] ∧
     (ProjectType.compile
        { provider_list := some [⟨"nutanix_pc", "acc-1", some ["A", "B"], some ["N"], none⟩],
          quotas := none, subnet_reference_list := none, external_network_list := none,
          default_subnet_reference := none, environment_definition_list := none,
          account_reference_list := none, resource_domain := none }).external_network_list
      = none) :=
  ⟨rfl,
   (project_provider_lists_C5 _ "acc-1" ["A", "B"] ["N"] rfl rfl).1 rfl⟩

/-- C5 counterexample: one `nutanix_pc` provider declaring both
`subnet_reference_list = ["A"]` and `external_network_list = ["B"]`.  The
claim requires both lists to be contributed; the compiled output carries the
subnet entries but no `external_network_list` at all. -/
theorem project_provider_lists_C5_counterexample :
    (ProjectType.compile
        { provider_list := some [⟨"nutanix_pc", "acc-1", some ["A"], some ["B"], none⟩],
          quotas := none, subnet_reference_list := none, external_network_list := none,
          default_subnet_reference := none, environment_definition_list := none,
          account_reference_list := none, resource_domain := none }).subnet_reference_list
      = some ["A"] ∧
    (ProjectType.compile
        { provider_list := some [⟨"nutanix_pc", "acc-1", some ["A"], some ["B"], none⟩],
          quotas := none, subnet_reference_list := none, external_network_list := none,
          default_subnet_reference := none, environment_definition_list := none,
          account_reference_list := none, resource_domain := none }).external_network_list
      = none := by
  decide

/-! ### Account payload helper lemmas -/

theorem insert_uuid_le (l : List ActionItem) (n : Nat) :
    n ≤ (insert_uuid l n).2 := by
  induction l generalizing n with
  | nil => exact Nat.le_refl n
  | cons a rest ih =>
    cases ha : a.uuid with
    | none =>
      simp only [insert_uuid, ha]
      exact Nat.le_trans (Nat.le_succ n) (ih (n + 1))
    | some u =>
      simp only [insert_uuid, ha]
      exact ih n

theorem create_provider_payload_counter (ua : UserAccount) (n : Nat) :
    (create_provider_payload ua n).2
      = n + 1 + ua.data.auth_schema_list.length := by
  show (stampEach _ ua.data.auth_schema_list (n + 1)).2
      = n + 1 + ua.data.auth_schema_list.length
  exact stampEach_counter _ _ _

theorem create_resource_type_payload_counter_lt (ua : UserAccount)
    (pu : String) (n : Nat) : n < (create_resource_type_payload ua pu n).2 := by
  show n < (stampEach _ (ua.data.resource_config.cred_attrs.map markSecret)
      ((stampEach _ (ua.data.resource_config.«variables».map markSecret)
        ((insert_uuid ua.data.resource_config.action_list (n + 1)).2)).2)).2
  rw [stampEach_counter, stampEach_counter]
  have h := insert_uuid_le ua.data.resource_config.action_list (n + 1)
  omega

/-- C2 (amended): in the composite bundle, the resource-type payload's
`spec.resources.provider_reference.uuid` equals the provider payload's
generated `metadata.uuid`, and the account payload's
`spec.resources.data.provider_reference` is a copy of the resource-type
payload's `provider_reference` — it therefore also carries the *provider's*
generated identifier, not the resource-type payload's own `metadata.uuid`
(see the counterexample). -/
theorem bundle_references_C2 (ua : UserAccount) (n : Nat) :
    ((create_credential_provider_account_payload ua n).1.resource_type.spec.resources.provider_reference.uuid
      = (create_credential_provider_account_payload ua n).1.provider.metadata.uuid) ∧
    ((create_credential_provider_account_payload ua n).1.account.spec.resources.data.provider_reference
      = (create_credential_provider_account_payload ua n).1.resource_type.spec.resources.provider_reference) :=
  ⟨rfl, rfl⟩

/-- C2 counterexample: for a concrete credential-provider account, the
account payload's embedded reference equals the provider's generated
identifier (`uuidStr 0`) and differs from the resource-type payload's own
`metadata.uuid` (`uuidStr 1`), refuting the claim's second conjunct. -/
theorem bundle_references_C2_counterexample :
    (create_credential_provider_account_payload
        ⟨"", "CredAcc", "credential_provider", ⟨[], ⟨[], [], []⟩⟩⟩
        0).1.account.spec.resources.data.provider_reference.uuid
      ≠ (create_credential_provider_account_payload
        ⟨"", "CredAcc", "credential_provider", ⟨[], ⟨[], [], []⟩⟩⟩
        0).1.resource_type.metadata.uuid := by
  decide

/-- C10: every auth-schema entry in the provider payload has its `value`
field overwritten with the empty string, whatever value was declared. -/
theorem provider_value_cleared_C10 (ua : UserAccount) (n : Nat) :
    ∀ v ∈ (create_provider_payload ua n).1.spec.resources.auth_schema_list,
      v.value = "" := by
  intro v hv
  have hv' : v ∈ (stampEach
      (fun w k => markSecret { w with value := "", uuid := some (uuidStr k) })
      ua.data.auth_schema_list (n + 1)).1 := hv
  obtain ⟨w, k, hw, rfl⟩ := stampEach_mem _ _ _ _ hv'
  rw [markSecret_value]

theorem provider_value_cleared_C10_witness :
    ((⟨"api_key", "STRING", "", some (uuidStr 1), none⟩ : Variable) ∈
      (create_provider_payload
        ⟨"", "CredAcc", "credential_provider",
         ⟨[⟨"api_key", "STRING", "topsecret", none, none⟩], ⟨[], [], []⟩⟩⟩
        0).1.spec.resources.auth_schema_list) ∧
    (⟨"api_key", "STRING", "", some (uuidStr 1), none⟩ : Variable).value = "" :=
  ⟨by decide,
   provider_value_cleared_C10
     ⟨"", "CredAcc", "credential_provider",
      ⟨[⟨"api_key", "STRING", "topsecret", none, none⟩], ⟨[], [], []⟩⟩⟩ 0
     ⟨"api_key", "STRING", "", some (uuidStr 1), none⟩ (by decide)⟩

/-- C7 (amended): the plain account payload and the resource-type and account
payloads of a composite bundle each carry `metadata` with all three envelope
fields `kind`, `name` and a freshly generated `uuid`, wrapped around
`spec = {name, resources}`; the *provider* payload's metadata, however,
carries only `kind` and `uuid` — no `name` key (see the counterexample).
The three metadata identifiers of a bundle are pairwise distinct fresh
draws. -/
theorem payload_envelopes_C7 (ua : UserAccount) (n : Nat) :
    ((create_account_payload ua n).1.metadata.kind = "account" ∧
     (create_account_payload ua n).1.metadata.name = some ua.className ∧
     (create_account_payload ua n).1.metadata.uuid = uuidStr n ∧
     (create_account_payload ua n).1.spec.name = ua.className) ∧
    ((create_credential_provider_account_payload ua n).1.provider.metadata.kind = "provider" ∧
     (create_credential_provider_account_payload ua n).1.provider.metadata.name = none ∧
     (create_credential_provider_account_payload ua n).1.provider.metadata.uuid = uuidStr n) ∧
    ((create_credential_provider_account_payload ua n).1.resource_type.metadata.kind = "resource_type" ∧
     (create_credential_provider_account_payload ua n).1.resource_type.metadata.name
       = some (effectiveName ua) ∧
     (create_credential_provider_account_payload ua n).1.account.metadata.kind = "account" ∧
     (create_credential_provider_account_payload ua n).1.account.metadata.name
       = some (effectiveName ua)) ∧
    ((create_credential_provider_account_payload ua n).1.provider.metadata.uuid
       ≠ (create_credential_provider_account_payload ua n).1.resource_type.metadata.uuid ∧
     (create_credential_provider_account_payload ua n).1.resource_type.metadata.uuid
       ≠ (create_credential_provider_account_payload ua n).1.account.metadata.uuid ∧
     (create_credential_provider_account_payload ua n).1.provider.metadata.uuid
       ≠ (create_credential_provider_account_payload ua n).1.account.metadata.uuid) := by
  have hc1 : (create_provider_payload ua n).2
      = n + 1 + ua.data.auth_schema_list.length :=
    create_provider_payload_counter ua n
  have hc2 : (create_provider_payload ua n).2
      < (create_resource_type_payload ua
          ((create_provider_payload ua n).1.metadata.uuid)
          ((create_provider_payload ua n).2)).2 :=
    create_resource_type_payload_counter_lt ua _ _
  refine ⟨⟨rfl, rfl, rfl, rfl⟩, ⟨rfl, rfl, rfl⟩, ⟨rfl, rfl, rfl, rfl⟩, ?_, ?_, ?_⟩
  · show uuidStr n ≠ uuidStr (create_provider_payload ua n).2
    intro h
    have := uuidStr_injective h
    omega
  · show uuidStr (create_provider_payload ua n).2
      ≠ uuidStr (create_resource_type_payload ua
          ((create_provider_payload ua n).1.metadata.uuid)
          ((create_provider_payload ua n).2)).2
    intro h
    have := uuidStr_injective h
    omega
  · show uuidStr n
      ≠ uuidStr (create_resource_type_payload ua
          ((create_provider_payload ua n).1.metadata.uuid)
          ((create_provider_payload ua n).2)).2
    intro h
    have := uuidStr_injective h
    omega

/-- C7 counterexample: for a concrete credential-provider account, the
provider payload of the bundle has no `name` key in its metadata (modelled as
`none`), refuting "metadata contains all three envelope fields kind, name,
and a freshly generated uuid" for each payload of the bundle. -/
theorem payload_envelopes_C7_counterexample :
    (create_credential_provider_account_payload
        ⟨"", "CredAcc", "credential_provider", ⟨[], ⟨[], [], []⟩⟩⟩
        0).1.provider.metadata.name = none := by
  decide

theorem payload_envelopes_C7_witness :
    (create_credential_provider_account_payload
        ⟨"", "PlainAcc", "credential_provider", ⟨[], ⟨[], [], []⟩⟩⟩
        0).1.provider.metadata.uuid
      ≠ (create_credential_provider_account_payload
        ⟨"", "PlainAcc", "credential_provider", ⟨[], ⟨[], [], []⟩⟩⟩
        0).1.resource_type.metadata.uuid :=
  (payload_envelopes_C7
    ⟨"", "PlainAcc", "credential_provider", ⟨[], ⟨[], [], []⟩⟩⟩ 0).2.2.2.1

/-! ### C3: secret marking -/

theorem stampedA_attrs (src : List Variable) (n : Nat) :
    (∀ v ∈ (stampEach
        (fun w k => markSecret { w with value := "", uuid := some (uuidStr k) })
        src n).1, v.type = "SECRET" → v.attrs = some secretAttrs) ∧
    ((∀ w ∈ src, w.attrs = none) →
      ∀ v ∈ (stampEach
        (fun w k => markSecret { w with value := "", uuid := some (uuidStr k) })
        src n).1, v.type ≠ "SECRET" → v.attrs = none) := by
  constructor
  · intro v hv hsec
    obtain ⟨w, k, hw, rfl⟩ := stampEach_mem _ _ _ _ hv
    have hx : ({ w with value := "", uuid := some (uuidStr k) } : Variable).type
        = "SECRET" := by
      rw [← markSecret_type]
      exact hsec
    exact markSecret_attrs_secret _ hx
  · intro hall v hv hns
    obtain ⟨w, k, hw, rfl⟩ := stampEach_mem _ _ _ _ hv
    have hx : ({ w with value := "", uuid := some (uuidStr k) } : Variable).type
        ≠ "SECRET" := by
      rw [← markSecret_type]
      exact hns
    rw [markSecret_attrs_other _ hx]
    exact hall w hw

theorem stampedB_attrs (src : List Variable) (n : Nat) :
    (∀ v ∈ (stampEach
        (fun w k => markSecret { w with uuid := some (uuidStr k) })
        src n).1, v.type = "SECRET" → v.attrs = some secretAttrs) ∧
    ((∀ w ∈ src, w.attrs = none) →
      ∀ v ∈ (stampEach
        (fun w k => markSecret { w with uuid := some (uuidStr k) })
        src n).1, v.type ≠ "SECRET" → v.attrs = none) := by
  constructor
  · intro v hv hsec
    obtain ⟨w, k, hw, rfl⟩ := stampEach_mem _ _ _ _ hv
    have hx : ({ w with uuid := some (uuidStr k) } : Variable).type = "SECRET" := by
      rw [← markSecret_type]
      exact hsec
    exact markSecret_attrs_secret _ hx
  · intro hall v hv hns
    obtain ⟨w, k, hw, rfl⟩ := stampEach_mem _ _ _ _ hv
    have hx : ({ w with uuid := some (uuidStr k) } : Variable).type ≠ "SECRET" := by
      rw [← markSecret_type]
      exact hns
    rw [markSecret_attrs_other _ hx]
    exact hall w hw

theorem stampedC_attrs (src : List Variable) (n : Nat) :
    (∀ v ∈ (stampEach (fun w k => { w with uuid := some (uuidStr k) })
        (src.map markSecret) n).1,
      v.type = "SECRET" → v.attrs = some secretAttrs) ∧
    ((∀ w ∈ src, w.attrs = none) →
      ∀ v ∈ (stampEach (fun w k => { w with uuid := some (uuidStr k) })
        (src.map markSecret) n).1,
      v.type ≠ "SECRET" → v.attrs = none) := by
  constructor
  · intro v hv hsec
    obtain ⟨w, k, hw, rfl⟩ := stampEach_mem _ _ _ _ hv
    obtain ⟨w0, hw0, rfl⟩ := List.mem_map.mp hw
    have ht : w0.type = "SECRET" := by
      rw [← markSecret_type]
      exact hsec
    show (markSecret w0).attrs = some secretAttrs
    exact markSecret_attrs_secret _ ht
  · intro hall v hv hns
    obtain ⟨w, k, hw, rfl⟩ := stampEach_mem _ _ _ _ hv
    obtain ⟨w0, hw0, rfl⟩ := List.mem_map.mp hw
    have ht : w0.type ≠ "SECRET" := by
      rw [← markSecret_type]
      exact hns
    show (markSecret w0).attrs = none
    rw [markSecret_attrs_other _ ht]
    exact hall w0 hw0

/-- C3: in the compiled credential-provider bundle, every entry of declared
type `"SECRET"` — provider auth-schema entries, resource-type input variables
(`variable_list`) and output variables (`schema_list`), and account
variable-list entries — carries `attrs = {"is_secret_modified": true,
"type": "SECRET"}`; entries of any other declared type receive no such
marker from this step (their `attrs` stays absent when it was absent in the
declaration). -/
theorem secret_marking_C3 (ua : UserAccount) (n : Nat) :
    (∀ v ∈ (create_credential_provider_account_payload ua n).1.provider.spec.resources.auth_schema_list,
       v.type = "SECRET" → v.attrs = some secretAttrs) ∧
    (∀ v ∈ (create_credential_provider_account_payload ua n).1.resource_type.spec.resources.variable_list,
       v.type = "SECRET" → v.attrs = some secretAttrs) ∧
    (∀ v ∈ (create_credential_provider_account_payload ua n).1.resource_type.spec.resources.schema_list,
       v.type = "SECRET" → v.attrs = some secretAttrs) ∧
    (∀ v ∈ (create_credential_provider_account_payload ua n).1.account.spec.resources.data.variable_list,
       v.type = "SECRET" → v.attrs = some secretAttrs) ∧
    ((∀ w ∈ ua.data.auth_schema_list, w.attrs = none) →
       ∀ v ∈ (create_credential_provider_account_payload ua n).1.provider.spec.resources.auth_schema_list,
         v.type ≠ "SECRET" → v.attrs = none) ∧
    ((∀ w ∈ ua.data.resource_config.«variables», w.attrs = none) →
       ∀ v ∈ (create_credential_provider_account_payload ua n).1.resource_type.spec.resources.variable_list,
         v.type ≠ "SECRET" → v.attrs = none) ∧
    ((∀ w ∈ ua.data.resource_config.cred_attrs, w.attrs = none) →
       ∀ v ∈ (create_credential_provider_account_payload ua n).1.resource_type.spec.resources.schema_list,
         v.type ≠ "SECRET" → v.attrs = none) ∧
    ((∀ w ∈ ua.data.auth_schema_list, w.attrs = none) →
       ∀ v ∈ (create_credential_provider_account_payload ua n).1.account.spec.resources.data.variable_list,
         v.type ≠ "SECRET" → v.attrs = none) :=
  ⟨(stampedA_attrs ua.data.auth_schema_list (n + 1)).1,
   (stampedC_attrs ua.data.resource_config.«variables» _).1,
   (stampedC_attrs ua.data.resource_config.cred_attrs _).1,
   (stampedB_attrs ua.data.auth_schema_list _).1,
   (stampedA_attrs ua.data.auth_schema_list (n + 1)).2,
   (stampedC_attrs ua.data.resource_config.«variables» _).2,
   (stampedC_attrs ua.data.resource_config.cred_attrs _).2,
   (stampedB_attrs ua.data.auth_schema_list _).2⟩

theorem secret_marking_C3_witness :
    ((⟨"passwd", "SECRET", "", some (uuidStr 1), some secretAttrs⟩ : Variable) ∈
       (create_credential_provider_account_payload
         ⟨"", "CredAcc2", "credential_provider",
          ⟨[⟨"passwd", "SECRET", "p1", none, none⟩], ⟨[], [], []⟩⟩⟩
         0).1.provider.spec.resources.auth_schema_list) ∧
    (⟨"passwd", "SECRET", "", some (uuidStr 1), some secretAttrs⟩ : Variable).attrs
      = some secretAttrs :=
  ⟨by decide,
   (secret_marking_C3
      ⟨"", "CredAcc2", "credential_provider",
       ⟨[⟨"passwd", "SECRET", "p1", none, none⟩], ⟨[], [], []⟩⟩⟩ 0).1
     ⟨"passwd", "SECRET", "", some (uuidStr 1), some secretAttrs⟩
     (by decide) (by decide)⟩

/-! ### C6: identifier stamping -/

theorem stampedA_uuid (w : Variable) (k : Nat) :
    (markSecret { w with value := "", uuid := some (uuidStr k) }).uuid
      = some (uuidStr k) := by
  rw [markSecret_uuid]

theorem stampedB_uuid (w : Variable) (k : Nat) :
    (markSecret { w with uuid := some (uuidStr k) }).uuid = some (uuidStr k) := by
  rw [markSecret_uuid]

theorem stamped_uuid_present (f : Variable → Nat → Variable)
    (hf : ∀ v k, (f v k).uuid = some (uuidStr k)) (src : List Variable)
    (n : Nat) :
    ∀ v ∈ (stampEach f src n).1, ∃ u, v.uuid = some u ∧ u ≠ "" := by
  intro v hv
  obtain ⟨w, k, hw, rfl⟩ := stampEach_mem f src n v hv
  exact ⟨uuidStr k, hf w k, uuidStr_ne_empty k⟩

theorem stampEach_append_uuid_nodup (f : Variable → Nat → Variable)
    (hf : ∀ v k, (f v k).uuid = some (uuidStr k)) (src1 src2 : List Variable)
    (n : Nat) :
    (((stampEach f src1 n).1
        ++ (stampEach f src2 ((stampEach f src1 n).2)).1).map Variable.uuid).Nodup := by
  rw [List.map_append, stampEach_map_uuid f hf, stampEach_map_uuid f hf,
      stampEach_counter, ← List.map_append, List.range'_append_1]
  exact (List.nodup_range' _ _).map someUuid_injective

/-- C6 (amended): every auth-schema and variable list passed through
identifier stamping keeps its length, every output element carries a
non-empty identifier, and the identifiers generated within one assembly call
are pairwise unique — but the stamping loops of `accounts.py` assign a
*fresh* identifier to every element unconditionally, overwriting any
identifier the element already carried (see the counterexample); the
keep-existing behaviour claimed holds only for the action-list stamper
`insert_uuid`, whose source lies outside the compiler sources. -/
theorem reference_stamping_C6 (ua : UserAccount) (n : Nat) :
    ((create_credential_provider_account_payload ua n).1.provider.spec.resources.auth_schema_list.length
        = ua.data.auth_schema_list.length ∧
     (create_credential_provider_account_payload ua n).1.resource_type.spec.resources.variable_list.length
        = ua.data.resource_config.«variables».length ∧
     (create_credential_provider_account_payload ua n).1.resource_type.spec.resources.schema_list.length
        = ua.data.resource_config.cred_attrs.length ∧
     (create_credential_provider_account_payload ua n).1.account.spec.resources.data.variable_list.length
        = ua.data.auth_schema_list.length) ∧
    ((∀ v ∈ (create_credential_provider_account_payload ua n).1.provider.spec.resources.auth_schema_list,
        ∃ u, v.uuid = some u ∧ u ≠ "") ∧
     (∀ v ∈ (create_credential_provider_account_payload ua n).1.resource_type.spec.resources.variable_list,
        ∃ u, v.uuid = some u ∧ u ≠ "") ∧
     (∀ v ∈ (create_credential_provider_account_payload ua n).1.resource_type.spec.resources.schema_list,
        ∃ u, v.uuid = some u ∧ u ≠ "") ∧
     (∀ v ∈ (create_credential_provider_account_payload ua n).1.account.spec.resources.data.variable_list,
        ∃ u, v.uuid = some u ∧ u ≠ "")) ∧
    (((create_credential_provider_account_payload ua n).1.provider.spec.resources.auth_schema_list.map Variable.uuid).Nodup ∧
     (((create_credential_provider_account_payload ua n).1.resource_type.spec.resources.variable_list
        ++ (create_credential_provider_account_payload ua n).1.resource_type.spec.resources.schema_list).map Variable.uuid).Nodup ∧
     ((create_credential_provider_account_payload ua n).1.account.spec.resources.data.variable_list.map Variable.uuid).Nodup) := by
  refine ⟨⟨?_, ?_, ?_, ?_⟩, ⟨?_, ?_, ?_, ?_⟩, ?_, ?_, ?_⟩
  · exact stampEach_length _ _ _
  · show (stampEach _ (ua.data.resource_config.«variables».map markSecret) _).1.length = _
    rw [stampEach_length, List.length_map]
  · show (stampEach _ (ua.data.resource_config.cred_attrs.map markSecret) _).1.length = _
    rw [stampEach_length, List.length_map]
  · exact stampEach_length _ _ _
  · exact stamped_uuid_present _ stampedA_uuid _ _
  · exact stamped_uuid_present _ (fun w k => rfl) _ _
  · exact stamped_uuid_present _ (fun w k => rfl) _ _
  · exact stamped_uuid_present _ stampedB_uuid _ _
  · exact stampEach_uuid_nodup _ stampedA_uuid _ _
  · exact stampEach_append_uuid_nodup _ (fun w k => rfl) _ _ _
  · exact stampEach_uuid_nodup _ stampedB_uuid _ _

/-- C6 counterexample: a resource-type input variable declared *with* an
identifier (`"pre-existing-id"`).  The claim requires re-stamping to keep it
unchanged; the code overwrites it with the next fresh draw (`uuidStr 2`). -/
theorem reference_stamping_C6_counterexample :
    ((create_credential_provider_account_payload
        ⟨"", "CredAcc3", "credential_provider",
         ⟨[], ⟨[⟨"v1", "STRING", "x", some "pre-existing-id", none⟩], [], []⟩⟩⟩
        0).1.resource_type.spec.resources.variable_list.map Variable.uuid)
      = [some (uuidStr 2)] ∧ uuidStr 2 ≠ "pre-existing-id" := by
  decide

theorem reference_stamping_C6_witness :
    ((⟨"v1", "STRING", "x", some (uuidStr 2), none⟩ : Variable) ∈
      (create_credential_provider_account_payload
        ⟨"", "CredAcc4", "credential_provider",
         ⟨[], ⟨[⟨"v1", "STRING", "x", none, none⟩], [], []⟩⟩⟩
        0).1.resource_type.spec.resources.variable_list) ∧
    (∃ u, (⟨"v1", "STRING", "x", some (uuidStr 2), none⟩ : Variable).uuid
        = some u ∧ u ≠ "") :=
  ⟨by decide,
   (reference_stamping_C6
      ⟨"", "CredAcc4", "credential_provider",
       ⟨[], ⟨[⟨"v1", "STRING", "x", none, none⟩], [], []⟩⟩⟩ 0).2.1.2.1
     ⟨"v1", "STRING", "x", some (uuidStr 2), none⟩ (by decide)⟩

end CalmDSL
